import Mathlib

/-!
Shallow embedding of the scraping core of `auction_intelligence_system`
(`app/core/proxy_manager.py`, `app/core/user_agent_manager.py`,
`app/core/scrapers/base_scraper.py`, `app/core/scrapers/ebay_scraper.py`,
`app/core/scrapers/scraper_factory.py`, `app/core/scraper_service.py`),
together with theorems settling the frozen claims about it.

Modelling conventions:
* Python exceptions are values of `PyExc`: an error kind (`PyErr`) plus the
  implicit-chaining context list (`PyExc.ctx`), innermost first, as set by
  `raise` inside an `except` block (PEP 3134 `__context__`).
* Wall-clock time (`time.time()`, `time.sleep`) is a natural-number field
  `now` of the explicit state; `random.choice(xs)` draws the next value of an
  injected index stream `picks` and selects `xs[pick % xs.length]`.
* HTTP traffic is an oracle `fetch : Nat → String → FetchResult` indexed by
  the number of requests issued so far; a 2xx answer carries the body text
  together with its parsed document (`Doc`), standing for
  `BeautifulSoup(response.text)` — HTML parsing itself is not modelled, the
  oracle supplies the parse.
* Prices are rationals (`ℚ`); `float()` on the digit/dot strings produced by
  `re.sub(r"[^\d.]", "", _)` is modelled exactly on that domain.
-/

/-- Kinds of Python exception observed by the scraping core. -/
inductive PyErr where
  | requestException (msg : String)
  | valueError (msg : String)
  | attributeError (msg : String)
  | typeError (msg : String)
  | recursionError
  deriving DecidableEq

/-- A raised Python exception: its kind plus the implicit-chaining context
(`__context__` chain, innermost first) attached when it was raised inside an
`except` block. -/
structure PyExc where
  kind : PyErr
  ctx : List PyErr
  deriving DecidableEq

/-- Model of `str(e)` for the exception kinds above (the constructor message). -/
def PyErr.pyStr : PyErr → String
  | .requestException m => m
  | .valueError m => m
  | .attributeError m => m
  | .typeError m => m
  | .recursionError => "maximum recursion depth exceeded"

/-- Raise `k` while the exception `prev` is being handled: Python sets the
new exception's `__context__` to `prev` (implicit chaining). -/
def chainRaise (k : PyErr) (prev : PyExc) : PyExc :=
  ⟨k, prev.kind :: prev.ctx⟩

/-- Abstract rendering of `datetime.utcnow().isoformat()` /
`datetime.now().isoformat()`: the current model clock printed as a string. -/
def utcNowIso (now : Nat) : String := toString now

/-! ## Small string utilities mirroring the Python primitives used. -/

/-- Helper `startsWithL hay pat`: `pat` is a prefix of `hay` (character lists). -/
def startsWithL : List Char → List Char → Bool
  | _, [] => true
  | [], _ :: _ => false
  | a :: as, b :: bs => a = b && startsWithL as bs

/-- Helper `containsSub pat hay`: `pat` occurs as a contiguous substring of `hay`
(Python's `pat in hay`). -/
def containsSub (pat : List Char) : List Char → Bool
  | [] => startsWithL [] pat
  | c :: t => startsWithL (c :: t) pat || containsSub pat t

/-- Python's `pat in s` on strings. -/
def strContains (s pat : String) : Bool := containsSub pat.toList s.toList

/-- Numeric value of a digit run. -/
def digitsVal (ds : List Char) : Nat :=
  ds.foldl (fun a c => 10 * a + (c.toNat - 48)) 0

/-- Model of `re.sub(r"[^\d.]", "", s)`: keep only digits and dots. -/
def keepDigitsDots (s : String) : String :=
  String.mk (s.toList.filter (fun c => c.isDigit || c = '.'))

/-- Python `float()` restricted to strings of digits and dots (the exact
image of `re.sub(r"[^\d.]", "", _)`, which is the only way the scrapers call
it): succeeds iff the string has at least one digit and at most one dot,
otherwise raises `ValueError`. -/
def pyFloat (s : String) : Except PyExc ℚ :=
  let cs := s.toList
  if cs.all (fun c => c.isDigit || c = '.') && cs.count '.' ≤ 1 && cs.any Char.isDigit then
    let intPart := cs.takeWhile (· ≠ '.')
    let fracPart := (cs.drop intPart.length).drop 1
    .ok ((digitsVal intPart : ℚ) + (digitsVal fracPart : ℚ) / (10 : ℚ) ^ fracPart.length)
  else
    .error ⟨.valueError ("could not convert string to float: " ++ s), []⟩

/-- Model of `re.search(r"/itm/(\d+)", s)` at one position: the literal `/itm/`
followed by at least one digit; the capture group is the maximal digit run. -/
def itmAt : List Char → Option String
  | '/' :: 'i' :: 't' :: 'm' :: '/' :: rest =>
    let ds := rest.takeWhile Char.isDigit
    if ds.isEmpty then none else some (String.mk ds)
  | _ => none

/-- Leftmost match of `re.search(r"/itm/(\d+)", s)` over the whole string. -/
def findItmIdL : List Char → Option String
  | [] => none
  | c :: t => (itmAt (c :: t)).orElse (fun _ => findItmIdL t)

/-- Model of `re.search(r"/itm/(\d+)", s)`, returning group 1. -/
def findItmId (s : String) : Option String := findItmIdL s.toList

/-- Model of `re.search(r"\$(\d+\.\d{2})", s)` at one position, returning the matched
amount as a rational. -/
def dollarAt : List Char → Option ℚ
  | '$' :: rest =>
    let ds := rest.takeWhile Char.isDigit
    if ds.isEmpty then none else
      match rest.drop ds.length with
      | '.' :: a :: b :: _ =>
        if a.isDigit && b.isDigit then
          some ((digitsVal ds : ℚ) + ((10 * (a.toNat - 48) + (b.toNat - 48) : Nat) : ℚ) / 100)
        else none
      | _ => none
  | _ => none

/-- Leftmost match of `re.search(r"\$(\d+\.\d{2})", s)`. -/
def searchDollarL : List Char → Option ℚ
  | [] => none
  | c :: t => (dollarAt (c :: t)).orElse (fun _ => searchDollarL t)

/-- Model of `re.search(r"\$(\d+\.\d{2})", s)` on a string. -/
def searchDollar (s : String) : Option ℚ := searchDollarL s.toList

/-! ## ProxyManager (`app/core/proxy_manager.py`) -/

/-- The proxy dictionary `{"http": p, "https": p}` always carries the same
URI twice, so a proxy is modelled by that URI string. -/
abbrev Proxy := String

/-- Kind of the proxy currently in use (`self.proxy_type`). -/
inductive PType where
  | tStatic
  | tTor
  deriving DecidableEq

/-- The single well-known Tor SOCKS proxy returned by
`ProxyManager._load_tor_proxies` (lines 48–55). -/
def torDefaultProxy : Proxy := "socks5h://127.0.0.1:9050"

/-- State of a `ProxyManager` (`__init__`, lines 19–26).
`rotation_interval` is the constant 300 and is kept implicit. -/
structure ProxyMgr where
  staticProxies : List Proxy
  torProxies : List Proxy
  currentProxy : Option Proxy
  proxyType : Option PType
  lastRotation : Nat
  deriving DecidableEq

/-- Model of `ProxyManager.__init__`: `_load_static_proxies` reads the environment /
config file, abstracted as the parameter `staticList`; `_load_tor_proxies`
always returns exactly the singleton Tor list. -/
def mkProxyManager (staticList : List Proxy) : ProxyMgr :=
  { staticProxies := staticList
    torProxies := [torDefaultProxy]
    currentProxy := none
    proxyType := none
    lastRotation := 0 }

/-- Model of `random.choice (xs)` given the injected pick `i`: `xs[i % len(xs)]`
(only ever used with non-empty `xs`). -/
def randChoice (xs : List Proxy) (i : Nat) : Proxy :=
  xs.getD (i % xs.length) ""

/-- Model of `ProxyManager.rotate_proxy` (lines 72–93): prefer the static pool, fall
back to Tor, else clear the current proxy (and, faithfully to the code, do
not touch `last_rotation` in that last branch). -/
def rotateProxy (pm : ProxyMgr) (pick now : Nat) : ProxyMgr :=
  if pm.staticProxies ≠ [] then
    { pm with currentProxy := some (randChoice pm.staticProxies pick)
              proxyType := some .tStatic
              lastRotation := now }
  else if pm.torProxies ≠ [] then
    { pm with currentProxy := some (randChoice pm.torProxies pick)
              proxyType := some .tTor
              lastRotation := now }
  else
    { pm with currentProxy := none, proxyType := none }

/-- Model of `ProxyManager.get_proxy` (lines 57–70): rotate first when there is no
current proxy or the rotation interval (300 s) has elapsed, then return the
current proxy. -/
def getProxy (pm : ProxyMgr) (pick now : Nat) : Option Proxy × ProxyMgr :=
  if pm.currentProxy = none ∨ 300 < now - pm.lastRotation then
    let pm' := rotateProxy pm pick now
    (pm'.currentProxy, pm')
  else
    (pm.currentProxy, pm)

/-! ## UserAgentManager (`app/core/user_agent_manager.py`) -/

/-- State of a `UserAgentManager` (`__init__`, lines 18–23). -/
structure UAMgr where
  userAgents : List String
  currentUserAgent : Option String
  lastRotation : Nat
  deriving DecidableEq

/-- Model of `UserAgentManager.__init__`; `_load_user_agents` (environment / config
file / built-in default list) is abstracted as the parameter. -/
def mkUserAgentManager (uas : List String) : UAMgr :=
  { userAgents := uas, currentUserAgent := none, lastRotation := 0 }

/-- Model of `UserAgentManager.rotate_user_agent` (lines 67–75). -/
def rotateUserAgent (uam : UAMgr) (pick now : Nat) : UAMgr :=
  if uam.userAgents ≠ [] then
    { uam with currentUserAgent := some (uam.userAgents.getD (pick % uam.userAgents.length) "")
               lastRotation := now }
  else
    { uam with currentUserAgent := none }

/-- Model of `UserAgentManager.get_user_agent` (lines 52–65). -/
def getUserAgent (uam : UAMgr) (pick now : Nat) : Option String × UAMgr :=
  if uam.currentUserAgent = none ∨ 300 < now - uam.lastRotation then
    let uam' := rotateUserAgent uam pick now
    (uam'.currentUserAgent, uam')
  else
    (uam.currentUserAgent, uam)

/-! ## Parsed document model

`Doc` stands for `BeautifulSoup(response.text, "html.parser")` restricted to
the selectors `EbayScraper` queries.  A `some` field is the `.text` content
(or, for `og:url`, the `content` attribute defaulted to `""`) of the found
element; `none` means `soup.find(...)` returned `None`.  The `sllr-info`,
`shp-info` and `rtn-info` blocks are carried as already-parsed records, since
their inner `.find(...).text` plumbing is not touched by any claim. -/

/-- Seller block (`EbayScraper._extract_seller`, lines 271–287). -/
structure SellerD where
  name : String
  feedback : String
  positiveFeedback : ℚ
  deriving DecidableEq

/-- Shipping block (`EbayScraper._extract_shipping`, lines 289–305). -/
structure ShippingD where
  cost : ℚ
  service : String
  location : String
  deriving DecidableEq

/-- Returns block (`EbayScraper._extract_returns`, lines 307–323). -/
structure ReturnsD where
  accepted : Bool
  timeLimit : String
  cost : String
  deriving DecidableEq

/-- The selectors of an eBay listing page that `EbayScraper` queries. -/
structure Doc where
  ogUrlContent : Option String
  itmNum : Option String
  itTtl : Option String
  prc : Option String
  attrBrand : Option String
  attrModel : Option String
  attrUpc : Option String
  attrAsin : Option String
  attrCondition : Option String
  attrDamage : Option String
  itTm : Option String
  sllrInfo : Option SellerD
  shpInfo : Option ShippingD
  rtnInfo : Option ReturnsD
  deriving DecidableEq

/-- A document with every selector absent (building block for tests). -/
def emptyDoc : Doc :=
  { ogUrlContent := none, itmNum := none, itTtl := none, prc := none
    attrBrand := none, attrModel := none, attrUpc := none, attrAsin := none
    attrCondition := none, attrDamage := none, itTm := none
    sllrInfo := none, shpInfo := none, rtnInfo := none }

/-! ## EbayScraper field extraction (`app/core/scrapers/ebay_scraper.py`) -/

/-- Model of `EbayScraper._extract_lot_number` (lines 114–135): first the
`og:url` meta content matched against `/itm/(\d+)`, then the `itm-num`
element, else `ValueError`. -/
def ebayExtractLotNumber (doc : Doc) : Except PyExc String :=
  match doc.ogUrlContent.bind findItmId with
  | some s => .ok s
  | none =>
    match doc.itmNum with
    | some t => .ok t.trim
    | none => .error ⟨.valueError "Could not extract auction ID", []⟩

/-- Model of `EbayScraper._extract_title` (lines 137–150). -/
def ebayExtractTitle (doc : Doc) : Except PyExc String :=
  match doc.itTtl with
  | some t => .ok t.trim
  | none => .error ⟨.valueError "Could not extract title", []⟩

/-- Model of `EbayScraper._extract_current_bid` (lines 152–167):
`float(re.sub(r"[^\d.]", "", bid_text))` of the `prc` element, else
`ValueError`. -/
def ebayExtractCurrentBid (doc : Doc) : Except PyExc ℚ :=
  match doc.prc with
  | some t => pyFloat (keepDigitsDots t.trim)
  | none => .error ⟨.valueError "Could not extract current bid", []⟩

/-- Model of `EbayScraper._extract_condition` (lines 225–238): required — raises when
the element is absent. -/
def ebayExtractCondition (doc : Doc) : Except PyExc String :=
  match doc.attrCondition with
  | some t => .ok t.trim
  | none => .error ⟨.valueError "Could not extract condition", []⟩

/-- Model of `EbayScraper._extract_brand` (lines 169–181): optional. -/
def ebayExtractBrand (doc : Doc) : Option String := doc.attrBrand.map String.trim

/-- Model of `EbayScraper._extract_model` (lines 183–195): optional. -/
def ebayExtractModel (doc : Doc) : Option String := doc.attrModel.map String.trim

/-- Model of `EbayScraper._extract_upc` (lines 197–209): optional. -/
def ebayExtractUpc (doc : Doc) : Option String := doc.attrUpc.map String.trim

/-- Model of `EbayScraper._extract_asin` (lines 211–223): optional. -/
def ebayExtractAsin (doc : Doc) : Option String := doc.attrAsin.map String.trim

/-- Model of `EbayScraper._extract_damage_notes` (lines 240–252): optional. -/
def ebayExtractDamageNotes (doc : Doc) : Option String := doc.attrDamage.map String.trim

/-- Model of `EbayScraper._extract_end_time` (lines 254–269): when the `it-tm`
element is present the code returns the placeholder
`datetime.now().isoformat()`, else `None`. -/
def ebayExtractEndTime (doc : Doc) (now : Nat) : Option String :=
  doc.itTm.map (fun _ => utcNowIso now)

/-! ## BaseScraper default extraction chain (`app/core/scrapers/base_scraper.py`) -/

/-- Model of `BaseScraper._extract_current_bid` (lines 100–114): leftmost
`\$(\d+\.\d{2})` match of the element text, defaulting to `0.0` when no
dollar-amount pattern matches. -/
def baseExtractCurrentBid (text : String) : ℚ :=
  (searchDollar text).getD 0

/-! ## Python values and record validation -/

/-- The dictionary values that can sit under the keys `_validate_data`
inspects, with Python truthiness in mind: `None`, strings, floats, and
(non-empty) nested objects such as the seller/shipping/returns dicts. -/
inductive PyVal where
  | none
  | str (s : String)
  | num (q : ℚ)
  | obj
  deriving DecidableEq

/-- Python truthiness of the values above (`bool(v)`); the `obj` case stands
for the three-key dicts built by the extractors, which are non-empty and
hence truthy. -/
def truthy : PyVal → Bool
  | .none => false
  | .str s => !s.isEmpty
  | .num q => q ≠ 0
  | .obj => true

/-- Model of `BaseScraper._validate_data` (lines 266–282): valid iff each of
`lot_number`, `title`, `current_bid` is present and truthy (`data.get(f)`
yields `None` for a missing key, and `if not data.get(field)` rejects every
falsy value). -/
def validateData (get : String → PyVal) : Bool :=
  ["lot_number", "title", "current_bid"].all (fun f => truthy (get f))

/-- The data dictionary assembled by `EbayScraper.scrape_by_url`
(lines 83–99), with the field names used as its keys. -/
structure EbayData where
  auctionId : String
  title : String
  currentBid : ℚ
  brand : Option String
  model : Option String
  upc : Option String
  asin : Option String
  condition : String
  damageNotes : Option String
  endTime : Option String
  seller : Option SellerD
  shipping : Option ShippingD
  returnsInfo : Option ReturnsD
  url : String
  scrapedAt : String
  deriving DecidableEq

/-- View of an `Option String` as a dictionary value. -/
def optStr : Option String → PyVal
  | some s => .str s
  | none => .none

/-- View of `Option` records as a dictionary value. -/
def optObj : Option α → PyVal
  | some _ => .obj
  | none => .none

/-- Model of `data.get(key)` on the dictionary of `EbayScraper.scrape_by_url`
lines 83–99.  The keys present are exactly those the code writes — in
particular there is no `"lot_number"` key (the extracted lot number is
stored under `"auction_id"`), so `data.get("lot_number")` is `None`. -/
def EbayData.get (d : EbayData) : String → PyVal
  | "auction_id" => .str d.auctionId
  | "title" => .str d.title
  | "current_bid" => .num d.currentBid
  | "brand" => optStr d.brand
  | "model" => optStr d.model
  | "upc" => optStr d.upc
  | "asin" => optStr d.asin
  | "condition" => .str d.condition
  | "damage_notes" => optStr d.damageNotes
  | "end_time" => optStr d.endTime
  | "seller" => optObj d.seller
  | "shipping" => optObj d.shipping
  | "returns" => optObj d.returnsInfo
  | "url" => .str d.url
  | "scraped_at" => .str d.scrapedAt
  | _ => .none

/-! ## The scrape pipeline state and oracle -/

/-- Outcome of one `requests.get` call: a transport-level
`RequestException` (timeout, connection refused, ...) or a response with
status code, body text, and the parse of that body. -/
inductive FetchResult where
  | transportError (msg : String)
  | resp (status : Nat) (text : String) (doc : Doc)

/-- The ambient oracle: `fetch n url` is the result of the `n`-th HTTP
request of the run (zero-based), and `picks` is the stream of indices
consumed by `random.choice`. -/
structure Env where
  fetch : Nat → String → FetchResult
  picks : Nat → Nat

/-- Mutable state threaded through a run of the service: the two shared
managers of `ScraperService.__init__`, the model clock, the cursor into the
random stream, and ghost instrumentation counting HTTP requests and
recording the URLs requested. -/
structure St where
  pm : ProxyMgr
  uam : UAMgr
  now : Nat
  randCtr : Nat
  fetchCount : Nat
  requestedUrls : List String

/-- Model of `time.sleep(d)` advances the model clock. -/
def sleepSt (st : St) (d : Nat) : St := { st with now := st.now + d }

/-- Model of `self.proxy_manager.rotate_proxy()` at the service state level: consumes
one random pick exactly when a choice was made. -/
def stRotateProxy (env : Env) (st : St) : St :=
  let used := !st.pm.staticProxies.isEmpty || !st.pm.torProxies.isEmpty
  { st with pm := rotateProxy st.pm (env.picks st.randCtr) st.now
            randCtr := if used then st.randCtr + 1 else st.randCtr }

/-- Model of `self.user_agent_manager.rotate_user_agent()` at the state level. -/
def stRotateUA (env : Env) (st : St) : St :=
  { st with uam := rotateUserAgent st.uam (env.picks st.randCtr) st.now
            randCtr := if st.uam.userAgents.isEmpty then st.randCtr else st.randCtr + 1 }

/-- Model of `self.proxy_manager.get_proxy()` at the state level.  A pick is consumed
exactly when `get_proxy` rotates onto a non-empty pool. -/
def stGetProxy (env : Env) (st : St) : Option Proxy × St :=
  if st.pm.currentProxy = none ∨ 300 < st.now - st.pm.lastRotation then
    let st' := stRotateProxy env st
    (st'.pm.currentProxy, st')
  else
    (st.pm.currentProxy, st)

/-- Model of `self.user_agent_manager.get_user_agent()` at the state level. -/
def stGetUserAgent (env : Env) (st : St) : Option String × St :=
  if st.uam.currentUserAgent = none ∨ 300 < st.now - st.uam.lastRotation then
    let st' := stRotateUA env st
    (st'.uam.currentUserAgent, st')
  else
    (st.uam.currentUserAgent, st)

/-- Ghost bookkeeping for one issued HTTP request. -/
def recordFetch (st : St) (url : String) : St :=
  { st with fetchCount := st.fetchCount + 1
            requestedUrls := st.requestedUrls ++ [url] }

/-! ## CAPTCHA handling (`BaseScraper._handle_captcha`, lines 250–264) -/

/-- The argument `_handle_captcha` receives.  Its docstring and body expect
an HTTP response object (whose `.text` is the body), but the call site
`EbayScraper.scrape_by_url` line 71 passes `response.text`, a `str`. -/
inductive PyTextArg where
  | ofStr (s : String)
  | ofResponse (text : String)

/-- The attribute access `response.text` performed at base_scraper.py
line 260: on a response object it yields the body; on a `str` (what the
eBay call site actually passes) it raises `AttributeError`, since `str` has
no attribute `text`. -/
def pyGetText : PyTextArg → Except PyExc String
  | .ofStr _ => .error ⟨.attributeError "str object has no attribute text", []⟩
  | .ofResponse t => .ok t

/-- Model of `BaseScraper._handle_captcha` (lines 250–264): lower-case the body of
its argument, look for the markers `"captcha"` / `"robot"`, and on a hit
rotate the proxy pool and report `True`.  The first evaluation of
`response.text` raises when the argument is a `str`. -/
def handleCaptcha (env : Env) (st : St) (response : PyTextArg) :
    Except PyExc (Bool × St) := do
  let t ← pyGetText response
  if strContains t.toLower "captcha" || strContains t.toLower "robot" then
    .ok (true, stRotateProxy env st)
  else
    .ok (false, st)

/-! ## Output structure (`BaseScraper._format_output`, lines 284–302) -/

/-- The dictionary `BaseScraper._format_output` builds. -/
structure FormattedOutput where
  metaId : String
  metaName : String
  metaEndTime : String
  items : List EbayData
  deriving DecidableEq

/-- Model of `BaseScraper._format_output(self, auction_id, auction_name, items)`. -/
def formatOutput (auctionId auctionName : String) (items : List EbayData)
    (now : Nat) : FormattedOutput :=
  { metaId := auctionId, metaName := auctionName
    metaEndTime := utcNowIso now, items := items }

/-- The call `self._format_output(data)` at ebay_scraper.py line 105:
`_format_output` takes three positional arguments besides `self`
(base_scraper.py line 284), so calling it with the single argument `data`
raises `TypeError` before its body runs. -/
def formatOutputCall (_ : EbayData) : Except PyExc FormattedOutput :=
  .error ⟨.typeError "format_output missing 2 required positional arguments", []⟩

/-! ## EbayScraper.scrape_by_url / scrape_by_id -/

/-- Model of `self.base_url` set in `EbayScraper.__init__` (line 25). -/
def ebayBaseUrl : String := "https://www.ebay.com"

/-- The URL `EbayScraper.scrape_by_id` builds (line 36):
`f"{self.base_url}/itm/{auction_id}"`. -/
def canonicalUrl (auctionId : String) : String :=
  ebayBaseUrl ++ "/itm/" ++ auctionId

/-- The dictionary built at ebay_scraper.py lines 83–99; the extractors that
raise on absence (`auction_id`, `title`, `current_bid`, `condition`) are run
in the source order of the dict literal. -/
def buildData (doc : Doc) (url : String) (now : Nat) : Except PyExc EbayData := do
  let aid ← ebayExtractLotNumber doc
  let ttl ← ebayExtractTitle doc
  let bid ← ebayExtractCurrentBid doc
  let cond ← ebayExtractCondition doc
  .ok { auctionId := aid, title := ttl, currentBid := bid
        brand := ebayExtractBrand doc, model := ebayExtractModel doc
        upc := ebayExtractUpc doc, asin := ebayExtractAsin doc
        condition := cond, damageNotes := ebayExtractDamageNotes doc
        endTime := ebayExtractEndTime doc now
        seller := doc.sllrInfo, shipping := doc.shpInfo
        returnsInfo := doc.rtnInfo
        url := url, scrapedAt := utcNowIso now }

/-- Model of `EbayScraper.scrape_by_url` (lines 39–112).  The first argument is fuel
bounding the self-recursion of the CAPTCHA branch (line 77 re-invokes
`scrape_by_url` on the same URL), standing for Python's recursion limit.
Flow: read the current proxy and user agent, issue one GET; a transport
error or a `raise_for_status` on a ≥400 status propagates as
`RequestException`; otherwise the body is passed — as a `str` — to
`_handle_captcha`, whose `response.text` access raises `AttributeError`;
the (hence unreachable) continuations are the CAPTCHA rotate-and-recurse
branch and the extract / validate / format pipeline. -/
def ebayScrapeByUrl : Nat → String → Env → St → Except PyExc FormattedOutput × St
  | 0, _, _, st => (.error ⟨.recursionError, []⟩, st)
  | fuel + 1, url, env, st0 =>
    let (_proxy, st1) := stGetProxy env st0
    let (_ua, st2) := stGetUserAgent env st1
    let fr := env.fetch st2.fetchCount url
    let st3 := recordFetch st2 url
    match fr with
    | .transportError msg => (.error ⟨.requestException msg, []⟩, st3)
    | .resp status text _doc =>
      if 400 ≤ status then
        (.error ⟨.requestException ("status " ++ toString status), []⟩, st3)
      else
        match handleCaptcha env st3 (.ofStr text) with
        | .error e => (.error e, st3)
        | .ok (true, st4) =>
          let st5 := stRotateProxy env st4
          let st6 := stRotateUA env st5
          ebayScrapeByUrl fuel url env st6
        | .ok (false, st4) =>
          match buildData _doc url st4.now with
          | .error e => (.error e, st4)
          | .ok data =>
            if validateData data.get then
              match formatOutputCall data with
              | .error e => (.error e, st4)
              | .ok out => (.ok out, st4)
            else
              (.error ⟨.valueError "Required fields missing from scraped data", []⟩, st4)

/-- The recursion-limit fuel used by the service-level entry points,
standing for CPython's default recursion limit. -/
def pyRecursionLimit : Nat := 1000

/-- Model of `EbayScraper.scrape_by_id` (lines 27–37): build the canonical URL and
delegate to `scrape_by_url`. -/
def ebayScrapeById (fuel : Nat) (auctionId : String) (env : Env) (st : St) :
    Except PyExc FormattedOutput × St :=
  ebayScrapeByUrl fuel (canonicalUrl auctionId) env st

/-! ## ScraperFactory (`app/core/scrapers/scraper_factory.py`) -/

/-- Model of `ScraperFactory.get_scraper` (lines 17–47): `_get_scraper_class` knows
only the key `"ebay"` (after `.lower()`); an unknown type raises
`ValueError` synchronously.  Manager initialisation and per-type instance
memoisation have no further observable effect in this model, so success is
reported as a unit. -/
def getScraper (scraperType : String) : Except PyExc Unit :=
  if scraperType.toLower = "ebay" then .ok ()
  else .error ⟨.valueError ("Invalid scraper type: " ++ scraperType), []⟩

/-! ## ScraperService.scrape_auction (`app/core/scraper_service.py`, lines 24–57) -/

/-- The message of the terminal `ValueError` at scraper_service.py line 57. -/
def exhaustMsg (auctionId : String) (maxRetries : Nat) : String :=
  "Failed to scrape auction " ++ auctionId ++ " after " ++ toString maxRetries ++ " attempts"

/-- The retry loop of `ScraperService.scrape_auction` (lines 45–57), with
`rem` the number of attempts still allowed (initially `max_retries`; the
iteration with `rem = 1` is the one with `attempt == max_retries - 1`).
Returning `.ok none` in the `rem = 0` base case models the loop body never
running (`max_retries = 0`), where the Python function falls off the loop
and returns `None`.  On a failed non-final attempt: sleep `retry_delay`,
rotate proxy and user agent, retry; on the final attempt re-raise as the
chained `ValueError` of line 57. -/
def scrapeLoop (env : Env) (auctionId : String) (maxRetries retryDelay : Nat) :
    Nat → St → Except PyExc (Option FormattedOutput) × St
  | 0, st => (.ok none, st)
  | rem + 1, st =>
    match ebayScrapeById pyRecursionLimit auctionId env st with
    | (.ok d, st') => (.ok (some d), st')
    | (.error e, st') =>
      if rem = 0 then
        (.error (chainRaise (.valueError (exhaustMsg auctionId maxRetries)) e), st')
      else
        scrapeLoop env auctionId maxRetries retryDelay rem
          (stRotateUA env (stRotateProxy env (sleepSt st' retryDelay)))

/-- Model of `ScraperService.scrape_auction` (lines 24–57): resolve the scraper via
the factory (line 43, before the loop — an unknown type raises here), then
run the bounded retry loop. -/
def scrapeAuction (env : Env) (st : St) (auctionId scraperType : String)
    (maxRetries retryDelay : Nat) : Except PyExc (Option FormattedOutput) × St :=
  match getScraper scraperType with
  | .error e => (.error e, st)
  | .ok _ => scrapeLoop env auctionId maxRetries retryDelay maxRetries st

/-- The exception produced by the final `scraper.scrape_by_id` attempt of
the retry loop, mirroring the state evolution of `scrapeLoop` (used to state
that the terminal `ValueError` chains exactly this exception). -/
def lastAttemptExc (env : Env) (auctionId : String) (retryDelay : Nat) :
    Nat → St → PyExc
  | 0, _ => ⟨.valueError "", []⟩
  | rem + 1, st =>
    match ebayScrapeById pyRecursionLimit auctionId env st with
    | (.ok _, _) => ⟨.valueError "", []⟩
    | (.error e, st') =>
      if rem = 0 then e
      else
        lastAttemptExc env auctionId retryDelay rem
          (stRotateUA env (stRotateProxy env (sleepSt st' retryDelay)))

/-! ## ScraperService.scrape_auctions (lines 59–99) -/

/-- One element of the batch result list: either the value returned by
`scrape_auction` or the error dictionary
`{"auction_id": ..., "error": str(e), "scraped_at": ...}` appended in the
`except` branch (lines 91–97). -/
inductive OutItem where
  | okItem (d : Option FormattedOutput)
  | errEntry (auctionId errText scrapedAt : String)
  deriving DecidableEq

/-- One iteration of the loop of `scrape_auctions` (lines 80–97): on
success append the result and sleep `delay_between`; on an exception append
the error dictionary (the sleep is skipped, being after the raising call in
the `try` block). -/
def scrapeItem (env : Env) (scraperType : String) (maxRetries retryDelay delayBetween : Nat)
    (st : St) (auctionId : String) : OutItem × St :=
  match scrapeAuction env st auctionId scraperType maxRetries retryDelay with
  | (.ok d, st') => (.okItem d, sleepSt st' delayBetween)
  | (.error e, st') => (.errEntry auctionId e.kind.pyStr (utcNowIso st'.now), st')

/-- The loop of `scrape_auctions` over the whole target list. -/
def scrapeItems (env : Env) (scraperType : String) (maxRetries retryDelay delayBetween : Nat) :
    List String → St → List OutItem × St
  | [], st => ([], st)
  | auctionId :: rest, st =>
    let (item, st') := scrapeItem env scraperType maxRetries retryDelay delayBetween st auctionId
    let (items, st'') := scrapeItems env scraperType maxRetries retryDelay delayBetween rest st'
    (item :: items, st'')

/-- Model of `ScraperService.scrape_auctions` (lines 59–99): resolve the scraper
(line 78 — an unknown type raises here, before any item is processed), then
process every target in input order, isolating per-item failures. -/
def scrapeAuctions (env : Env) (st : St) (auctionIds : List String)
    (scraperType : String) (maxRetries retryDelay delayBetween : Nat) :
    Except PyExc (List OutItem) × St :=
  match getScraper scraperType with
  | .error e => (.error e, st)
  | .ok _ =>
    let (items, st') := scrapeItems env scraperType maxRetries retryDelay delayBetween auctionIds st
    (.ok items, st')

/-! ## Helper lemmas -/

theorem stRotateProxy_fetchCount (env : Env) (st : St) :
    (stRotateProxy env st).fetchCount = st.fetchCount := rfl

theorem stRotateProxy_requestedUrls (env : Env) (st : St) :
    (stRotateProxy env st).requestedUrls = st.requestedUrls := rfl

theorem stRotateUA_fetchCount (env : Env) (st : St) :
    (stRotateUA env st).fetchCount = st.fetchCount := rfl

theorem stRotateUA_requestedUrls (env : Env) (st : St) :
    (stRotateUA env st).requestedUrls = st.requestedUrls := rfl

theorem stGetProxy_snd_fetchCount (env : Env) (st : St) :
    (stGetProxy env st).2.fetchCount = st.fetchCount := by
  unfold stGetProxy; split <;> rfl

theorem stGetProxy_snd_requestedUrls (env : Env) (st : St) :
    (stGetProxy env st).2.requestedUrls = st.requestedUrls := by
  unfold stGetProxy; split <;> rfl

theorem stGetUserAgent_snd_fetchCount (env : Env) (st : St) :
    (stGetUserAgent env st).2.fetchCount = st.fetchCount := by
  unfold stGetUserAgent; split <;> rfl

theorem stGetUserAgent_snd_requestedUrls (env : Env) (st : St) :
    (stGetUserAgent env st).2.requestedUrls = st.requestedUrls := by
  unfold stGetUserAgent; split <;> rfl

/-- After a successful fetch, the body — a `str` — is handed to
`_handle_captcha`, whose `response.text` access raises: the call always
errors. -/
theorem handleCaptcha_ofStr (env : Env) (st : St) (text : String) :
    handleCaptcha env st (.ofStr text) =
      .error ⟨.attributeError "str object has no attribute text", []⟩ := rfl

/-- Every call of `EbayScraper.scrape_by_url` with fuel left makes exactly
one HTTP request and ends in an exception: the transport / status error, or
(for any 2xx body) the `AttributeError` out of the CAPTCHA check. -/
theorem scrapeByUrl_errs (fuel : Nat) (url : String) (env : Env) (st : St) :
    (∃ e, (ebayScrapeByUrl (fuel + 1) url env st).1 = .error e) ∧
    (ebayScrapeByUrl (fuel + 1) url env st).2.fetchCount = st.fetchCount + 1 ∧
    (ebayScrapeByUrl (fuel + 1) url env st).2.requestedUrls = st.requestedUrls ++ [url] := by
  have hc : ((stGetUserAgent env (stGetProxy env st).2).2).fetchCount = st.fetchCount := by
    rw [stGetUserAgent_snd_fetchCount, stGetProxy_snd_fetchCount]
  have hu : ((stGetUserAgent env (stGetProxy env st).2).2).requestedUrls = st.requestedUrls := by
    rw [stGetUserAgent_snd_requestedUrls, stGetProxy_snd_requestedUrls]
  cases hf : env.fetch ((stGetUserAgent env (stGetProxy env st).2).2).fetchCount url with
  | transportError msg =>
    simp only [ebayScrapeByUrl, hf, recordFetch]
    exact ⟨⟨_, rfl⟩, by simp [hc], by simp [hu]⟩
  | resp status text doc =>
    simp only [ebayScrapeByUrl, hf, recordFetch, handleCaptcha_ofStr]
    by_cases hs : 400 ≤ status
    · simp only [if_pos hs]
      exact ⟨⟨_, rfl⟩, by simp [hc], by simp [hu]⟩
    · simp only [if_neg hs]
      exact ⟨⟨_, rfl⟩, by simp [hc], by simp [hu]⟩

/-- Corollary: `scrape_by_id` at the service fuel: always errs after exactly one
request for the canonical URL. -/
theorem scrapeById_errs (auctionId : String) (env : Env) (st : St) :
    (∃ e, (ebayScrapeById pyRecursionLimit auctionId env st).1 = .error e) ∧
    (ebayScrapeById pyRecursionLimit auctionId env st).2.fetchCount = st.fetchCount + 1 ∧
    (ebayScrapeById pyRecursionLimit auctionId env st).2.requestedUrls
      = st.requestedUrls ++ [canonicalUrl auctionId] := by
  exact scrapeByUrl_errs 999 (canonicalUrl auctionId) env st

/-- The retry loop with at least one attempt allowed: it terminates in the
chained `ValueError` of line 57 and consumes exactly one HTTP request per
allowed attempt. -/
theorem scrapeLoop_spec (env : Env) (auctionId : String) (maxRetries retryDelay : Nat) :
    ∀ rem st, 1 ≤ rem →
      (∃ c, (scrapeLoop env auctionId maxRetries retryDelay rem st).1 =
        .error ⟨.valueError (exhaustMsg auctionId maxRetries), c⟩) ∧
      (scrapeLoop env auctionId maxRetries retryDelay rem st).2.fetchCount
        = st.fetchCount + rem := by
  intro rem
  induction rem with
  | zero => intro st h; omega
  | succ k ih =>
    intro st _
    obtain ⟨⟨e, he⟩, hcount, -⟩ := scrapeById_errs auctionId env st
    rcases hrun : ebayScrapeById pyRecursionLimit auctionId env st with ⟨r, st'⟩
    rw [hrun] at he hcount
    simp only at he hcount
    subst he
    rcases Nat.eq_zero_or_pos k with hk | hk
    · subst hk
      simp only [scrapeLoop, hrun, if_pos rfl, chainRaise]
      exact ⟨⟨_, rfl⟩, hcount⟩
    · have hk0 : k ≠ 0 := by omega
      simp only [scrapeLoop, hrun, if_neg hk0]
      obtain ⟨hex, hct⟩ :=
        ih (stRotateUA env (stRotateProxy env (sleepSt st' retryDelay))) hk
      refine ⟨hex, ?_⟩
      rw [hct, stRotateUA_fetchCount, stRotateProxy_fetchCount]
      simp only [sleepSt]
      omega

/-- The terminal `ValueError` of the retry loop chains (as Python implicit
exception context) exactly the exception of the final attempt. -/
theorem scrapeLoop_last (env : Env) (auctionId : String) (maxRetries retryDelay : Nat) :
    ∀ rem st, 1 ≤ rem →
      (scrapeLoop env auctionId maxRetries retryDelay rem st).1 =
        .error (chainRaise (.valueError (exhaustMsg auctionId maxRetries))
          (lastAttemptExc env auctionId retryDelay rem st)) := by
  intro rem
  induction rem with
  | zero => intro st h; omega
  | succ k ih =>
    intro st _
    obtain ⟨⟨e, he⟩, -, -⟩ := scrapeById_errs auctionId env st
    rcases hrun : ebayScrapeById pyRecursionLimit auctionId env st with ⟨r, st'⟩
    rw [hrun] at he
    simp only at he
    subst he
    rcases Nat.eq_zero_or_pos k with hk | hk
    · subst hk
      simp [scrapeLoop, lastAttemptExc, hrun]
    · have hk0 : k ≠ 0 := by omega
      simp only [scrapeLoop, lastAttemptExc, hrun, if_neg hk0]
      exact ih (stRotateUA env (stRotateProxy env (sleepSt st' retryDelay))) hk

/-! ## Concrete inputs for the closed theorems -/

/-- A run in which every HTTP request times out. -/
def timeoutEnv : Env :=
  { fetch := fun _ _ => .transportError "timeout", picks := fun _ => 0 }

/-- A fresh service state: two configured static proxies, one user agent. -/
def sampleSt : St :=
  { pm := mkProxyManager ["http://proxyA", "http://proxyB"]
    uam := mkUserAgentManager ["uaX"]
    now := 1000, randCtr := 0, fetchCount := 0, requestedUrls := [] }

/-- The well-formed "Vintage Lamp" listing page of the spec scenario. -/
def lampDoc : Doc :=
  { emptyDoc with
    ogUrlContent := some "https://www.ebay.com/itm/123"
    itTtl := some "Vintage Lamp"
    prc := some "$42.50"
    attrCondition := some "Used" }

/-- The spec scenario oracle: the first two requests time out, the third
returns the valid lamp page. -/
def lampEnv : Env :=
  { fetch := fun n _ =>
      if n < 2 then .transportError "timeout"
      else .resp 200 "<html>Vintage Lamp listing</html>" lampDoc
    picks := fun _ => 0 }

/-- A state whose current proxy and user agent are set and fresh (rotated at
the current instant), with pool sizes 2. -/
def freshSt : St :=
  { pm := { staticProxies := ["http://proxyA", "http://proxyB"]
            torProxies := [torDefaultProxy]
            currentProxy := some "http://proxyA"
            proxyType := some .tStatic
            lastRotation := 1000 }
    uam := { userAgents := ["uaX", "uaY"]
             currentUserAgent := some "uaX"
             lastRotation := 1000 }
    now := 1000, randCtr := 0, fetchCount := 0, requestedUrls := [] }

/-- An oracle whose every response is a 2xx CAPTCHA challenge page. -/
def captchaEnv : Env :=
  { fetch := fun _ _ => .resp 200 "Please complete this CAPTCHA to continue" emptyDoc
    picks := fun _ => 1 }

/-- A listing page carrying everything except any current-bid element. -/
def noPriceDoc : Doc :=
  { emptyDoc with
    ogUrlContent := some "https://www.ebay.com/itm/999"
    itTtl := some "Widget"
    attrCondition := some "Used" }

/-- An oracle always returning the price-less page with a marker-free body. -/
def noPriceEnv : Env :=
  { fetch := fun _ _ => .resp 200 "<html>Widget listing</html>" noPriceDoc
    picks := fun _ => 0 }

/-! ## Claim theorems -/

/-- C1: in the spec scenario — static pool `["proxyA","proxyB"]`, UA pool
`["uaX"]`, target `"123"`, `max_retries = 3`, first two fetches timing out
and the third returning the valid "Vintage Lamp"/$42.50 page — the claim
says `scrape_auction` returns Success with that record after exactly 3
attempts.  The code instead makes exactly 3 requests and raises
`ValueError("Failed to scrape auction 123 after 3 attempts")`: the third
attempt dies in the CAPTCHA check (`_handle_captcha` is handed the body
`str`, whose `.text` access raises `AttributeError`, the chained context
kind recorded below), so no success is ever produced. -/
theorem c1_scenario_run :
    (scrapeAuction lampEnv sampleSt "123" "ebay" 3 5).1 =
      .error ⟨.valueError "Failed to scrape auction 123 after 3 attempts",
        [.attributeError "str object has no attribute text"]⟩ ∧
    (scrapeAuction lampEnv sampleSt "123" "ebay" 3 5).2.fetchCount = 3 :=
  ⟨by with_unfolding_all rfl, by with_unfolding_all rfl⟩

/-- C2: for every `max_retries = N ≥ 1` and every oracle (in this code every
attempt fails for every oracle — a permanently failing target is the general
case), `scrape_auction` makes exactly `N` HTTP requests — never `N + 1`,
never unboundedly many — and terminates by raising the retries-exhausted
`ValueError` of line 57. -/
theorem c2_retry_exhaustion_bound (env : Env) (st : St) (auctionId : String)
    (maxRetries retryDelay : Nat) (h : 1 ≤ maxRetries) :
    (∃ c, (scrapeAuction env st auctionId "ebay" maxRetries retryDelay).1 =
      .error ⟨.valueError (exhaustMsg auctionId maxRetries), c⟩) ∧
    (scrapeAuction env st auctionId "ebay" maxRetries retryDelay).2.fetchCount
      = st.fetchCount + maxRetries := by
  have hs : scrapeAuction env st auctionId "ebay" maxRetries retryDelay
      = scrapeLoop env auctionId maxRetries retryDelay maxRetries st := by
    with_unfolding_all rfl
  rw [hs]
  exact scrapeLoop_spec env auctionId maxRetries retryDelay maxRetries st h

/-- Witness for C2 at `N = 3` on the always-timeout oracle. -/
theorem c2_witness :
    1 ≤ 3 ∧
    ((∃ c, (scrapeAuction timeoutEnv sampleSt "123" "ebay" 3 5).1 =
      .error ⟨.valueError (exhaustMsg "123" 3), c⟩) ∧
    (scrapeAuction timeoutEnv sampleSt "123" "ebay" 3 5).2.fetchCount
      = sampleSt.fetchCount + 3) :=
  ⟨by decide, c2_retry_exhaustion_bound timeoutEnv sampleSt "123" 3 5 (by decide)⟩

/-- C5: whenever retries are exhausted, the terminal `ValueError` raised at
line 57 carries — as its Python implicit-chaining context (`__context__`,
set by `raise` inside `except`) — exactly the exception of the final
underlying attempt, available to the caller for diagnosis. -/
theorem c5_exhaustion_carries_last_error (env : Env) (st : St) (auctionId : String)
    (maxRetries retryDelay : Nat) (h : 1 ≤ maxRetries) :
    (scrapeAuction env st auctionId "ebay" maxRetries retryDelay).1 =
      .error ⟨.valueError (exhaustMsg auctionId maxRetries),
        (lastAttemptExc env auctionId retryDelay maxRetries st).kind ::
          (lastAttemptExc env auctionId retryDelay maxRetries st).ctx⟩ := by
  have hs : scrapeAuction env st auctionId "ebay" maxRetries retryDelay
      = scrapeLoop env auctionId maxRetries retryDelay maxRetries st := by
    with_unfolding_all rfl
  rw [hs]
  exact scrapeLoop_last env auctionId maxRetries retryDelay maxRetries st h

/-- Witness for C5 at `N = 2`: the chained context kind is the timeout
`RequestException` of the second (final) attempt. -/
theorem c5_witness :
    1 ≤ 2 ∧
    (scrapeAuction timeoutEnv sampleSt "9" "ebay" 2 5).1 =
      .error ⟨.valueError (exhaustMsg "9" 2),
        (lastAttemptExc timeoutEnv "9" 5 2 sampleSt).kind ::
          (lastAttemptExc timeoutEnv "9" 5 2 sampleSt).ctx⟩ :=
  ⟨by decide, c5_exhaustion_carries_last_error timeoutEnv sampleSt "9" 2 5 (by decide)⟩

/-- C3 counterexample: a 2xx response whose body contains "captcha", with
both pools of size 2 and fresh current identities.  The claim says the
adapter force-rotates both pools (so the current proxy and user agent differ
afterwards) and returns a blocked-error failure without retrying.  Instead
the call raises `AttributeError` (the body `str` passed to
`_handle_captcha` has no `.text`), the current proxy and user agent are
unchanged, and exactly one request was made. -/
theorem c3_counterexample :
    strContains "Please complete this CAPTCHA to continue".toLower "captcha" = true ∧
    (ebayScrapeByUrl pyRecursionLimit (canonicalUrl "77") captchaEnv freshSt).1 =
      .error ⟨.attributeError "str object has no attribute text", []⟩ ∧
    (ebayScrapeByUrl pyRecursionLimit (canonicalUrl "77") captchaEnv freshSt).2.pm.currentProxy
      = freshSt.pm.currentProxy ∧
    (ebayScrapeByUrl pyRecursionLimit (canonicalUrl "77") captchaEnv freshSt).2.uam.currentUserAgent
      = freshSt.uam.currentUserAgent ∧
    (ebayScrapeByUrl pyRecursionLimit (canonicalUrl "77") captchaEnv freshSt).2.fetchCount = 1 :=
  ⟨by with_unfolding_all rfl, by with_unfolding_all rfl, by with_unfolding_all rfl,
   by with_unfolding_all rfl, by with_unfolding_all rfl⟩

/-- C3 amended: for any 2xx response — in particular one whose body contains
a block marker — when the current proxy and user agent exist and are fresh
(so the interval-based rotation of `get_proxy`/`get_user_agent` does not
fire), `scrape_by_url` raises `AttributeError` out of the CAPTCHA check
(the body `str` passed at line 71 has no `.text` attribute): no pool is
rotated, no blocked-error value is returned (none exists in the code), and
the adapter does not itself re-fetch — the final state is the input state
with exactly the one request recorded. -/
theorem c3_amended_block_behavior (env : Env) (st : St) (url : String)
    (fuel status : Nat) (text : String) (doc : Doc)
    (hp : st.pm.currentProxy.isSome = true)
    (hpf : st.now - st.pm.lastRotation ≤ 300)
    (hu : st.uam.currentUserAgent.isSome = true)
    (huf : st.now - st.uam.lastRotation ≤ 300)
    (hf : env.fetch st.fetchCount url = .resp status text doc)
    (hs : status < 400) :
    ebayScrapeByUrl (fuel + 1) url env st =
      (.error ⟨.attributeError "str object has no attribute text", []⟩,
       recordFetch st url) := by
  have h1 : ¬(st.pm.currentProxy = none ∨ 300 < st.now - st.pm.lastRotation) := by
    rintro (h | h)
    · rw [h] at hp; simp at hp
    · omega
  have h2 : ¬(st.uam.currentUserAgent = none ∨ 300 < st.now - st.uam.lastRotation) := by
    rintro (h | h)
    · rw [h] at hu; simp at hu
    · omega
  have hgp : stGetProxy env st = (st.pm.currentProxy, st) := by
    unfold stGetProxy; rw [if_neg h1]
  have hgu : stGetUserAgent env st = (st.uam.currentUserAgent, st) := by
    unfold stGetUserAgent; rw [if_neg h2]
  have h400 : ¬ 400 ≤ status := by omega
  simp only [ebayScrapeByUrl, hgp, hgu, hf, handleCaptcha_ofStr, if_neg h400]

/-- Witness for the C3 amended theorem on the concrete CAPTCHA run. -/
theorem c3_amended_witness :
    (freshSt.pm.currentProxy.isSome = true ∧
     freshSt.now - freshSt.pm.lastRotation ≤ 300 ∧
     freshSt.uam.currentUserAgent.isSome = true ∧
     freshSt.now - freshSt.uam.lastRotation ≤ 300 ∧
     (200 : Nat) < 400) ∧
    ebayScrapeByUrl (999 + 1) (canonicalUrl "77") captchaEnv freshSt =
      (.error ⟨.attributeError "str object has no attribute text", []⟩,
       recordFetch freshSt (canonicalUrl "77")) :=
  ⟨⟨by decide, by decide, by decide, by decide, by decide⟩,
   c3_amended_block_behavior captchaEnv freshSt (canonicalUrl "77") 999 200
     "Please complete this CAPTCHA to continue" emptyDoc (by decide) (by decide)
     (by decide) (by decide) rfl (by decide)⟩

/-- C4: the batch loop returns exactly one outcome per input target; it
distributes over list append — so every target is processed in input order
and a failing item never stops or drops the items after it; and on the
concrete 3-target always-failing batch the three error entries come back in
input order.  (No target can ever succeed in this code — see C1 — so the
success/failure mix of the spec scenario is realisable only as the
failure-only instance below; the ordering and isolation invariants are
proved for all inputs.) -/
theorem c4_batch_isolation :
    (∀ env t maxR rd db (ids : List String) st,
      (scrapeItems env t maxR rd db ids st).1.length = ids.length) ∧
    (∀ env t maxR rd db (ids1 ids2 : List String) st,
      (scrapeItems env t maxR rd db (ids1 ++ ids2) st).1 =
        (scrapeItems env t maxR rd db ids1 st).1 ++
        (scrapeItems env t maxR rd db ids2 (scrapeItems env t maxR rd db ids1 st).2).1) ∧
    (scrapeAuctions timeoutEnv sampleSt ["1", "2", "3"] "ebay" 3 5 2).1 =
      .ok [.errEntry "1" "Failed to scrape auction 1 after 3 attempts" "1010",
           .errEntry "2" "Failed to scrape auction 2 after 3 attempts" "1020",
           .errEntry "3" "Failed to scrape auction 3 after 3 attempts" "1030"] := by
  refine ⟨?_, ?_, by with_unfolding_all rfl⟩
  · intro env t maxR rd db ids
    induction ids with
    | nil => intro st; rfl
    | cons a l ih =>
      intro st
      rcases h1 : scrapeItem env t maxR rd db st a with ⟨item, st'⟩
      rcases h2 : scrapeItems env t maxR rd db l st' with ⟨items, st''⟩
      have hl := ih st'
      rw [h2] at hl
      simp only [scrapeItems, h1, h2, List.length_cons]
      simpa using hl
  · intro env t maxR rd db ids1
    induction ids1 with
    | nil => intro ids2 st; rfl
    | cons a l ih =>
      intro ids2 st
      rcases h1 : scrapeItem env t maxR rd db st a with ⟨item, st'⟩
      simp only [List.cons_append, scrapeItems, h1]
      rcases h2 : scrapeItems env t maxR rd db (l ++ ids2) st' with ⟨items, st''⟩
      have happ := ih ids2 st'
      rw [h2] at happ
      rcases h3 : scrapeItems env t maxR rd db l st' with ⟨itemsL, stL⟩
      rw [h3] at happ
      simp only [h2, h3]
      simpa using happ

/-- C6: the claim says a document with no extractable price ends in a
validation failure and never in a Success.  It indeed never yields Success —
but not for the claimed reason: every successfully fetched document dies in
the CAPTCHA check with `AttributeError` before extraction runs, so the
failure is not the validation `ValueError`; had extraction been reached,
`_extract_current_bid` itself raises
`ValueError("Could not extract current bid")` on the price-less page, as the
second conjunct shows. -/
theorem c6_missing_price_run :
    (ebayScrapeByUrl pyRecursionLimit (canonicalUrl "999") noPriceEnv sampleSt).1 =
      .error ⟨.attributeError "str object has no attribute text", []⟩ ∧
    ebayExtractCurrentBid noPriceDoc =
      .error ⟨.valueError "Could not extract current bid", []⟩ :=
  ⟨by with_unfolding_all rfl, by with_unfolding_all rfl⟩

/-- C7 counterexample: an empty target list is not rejected — the claim says
it fails fast, but `scrape_auctions` returns an empty result list without
error, leaving the state (in particular the request count) untouched. -/
theorem c7_counterexample_empty_batch :
    scrapeAuctions timeoutEnv sampleSt [] "ebay" 3 5 2 = (.ok [], sampleSt) := by
  with_unfolding_all rfl

/-- C7 amended: an unknown `scraper_type` fails fast and synchronously with
`ValueError` from the factory, before any network request or state change,
in both the batch and the single-target entry points; an empty target list,
however, is not a configuration error — the batch returns an empty outcome
list, likewise having made no network request. -/
theorem c7_amended_config_errors :
    (∀ env st (ids : List String) t maxR rd db, t.toLower ≠ "ebay" →
      scrapeAuctions env st ids t maxR rd db =
        (.error ⟨.valueError ("Invalid scraper type: " ++ t), []⟩, st)) ∧
    (∀ env st id t maxR rd, t.toLower ≠ "ebay" →
      scrapeAuction env st id t maxR rd =
        (.error ⟨.valueError ("Invalid scraper type: " ++ t), []⟩, st)) ∧
    (∀ env st maxR rd db,
      scrapeAuctions env st [] "ebay" maxR rd db = (.ok [], st)) := by
  have hg : ∀ t, t.toLower ≠ "ebay" →
      getScraper t = .error ⟨.valueError ("Invalid scraper type: " ++ t), []⟩ := by
    intro t ht; unfold getScraper; rw [if_neg ht]
  refine ⟨?_, ?_, ?_⟩
  · intro env st ids t maxR rd db ht
    simp only [scrapeAuctions, hg t ht]
  · intro env st id t maxR rd ht
    simp only [scrapeAuction, hg t ht]
  · intro env st maxR rd db
    have hok : getScraper "ebay" = .ok () := by with_unfolding_all rfl
    simp only [scrapeAuctions, hok, scrapeItems]

/-- Witness for the C7 amended theorem at the unknown type `"foo"`. -/
theorem c7_witness :
    ("foo".toLower ≠ "ebay") ∧
    scrapeAuctions timeoutEnv sampleSt ["1"] "foo" 3 5 2 =
      (.error ⟨.valueError ("Invalid scraper type: " ++ "foo"), []⟩, sampleSt) :=
  ⟨by with_unfolding_all decide,
   c7_amended_config_errors.1 timeoutEnv sampleSt ["1"] "foo" 3 5 2
     (by with_unfolding_all decide)⟩

/-- C8: `scrape_by_id` is exactly `scrape_by_url` applied to the canonical
URL `base_url ++ "/itm/" ++ id` — the two entry points are equal as
functions of the oracle and state, and (second conjunct) the one URL such a
call requests is precisely the canonical URL of the id. -/
theorem c8_by_id_equals_by_url :
    (∀ fuel auctionId (env : Env) (st : St),
      ebayScrapeById fuel auctionId env st
        = ebayScrapeByUrl fuel (canonicalUrl auctionId) env st) ∧
    (∀ fuel auctionId (env : Env) (st : St),
      (ebayScrapeById (fuel + 1) auctionId env st).2.requestedUrls
        = st.requestedUrls ++ [canonicalUrl auctionId]) :=
  ⟨fun _ _ _ _ => rfl,
   fun fuel auctionId env st =>
     (scrapeByUrl_errs fuel (canonicalUrl auctionId) env st).2.2⟩

/-- C9: every constructed `ProxyManager` has the fixed singleton Tor
fallback list, which `rotate_proxy` and `get_proxy` never change; hence the
"no proxies available" branch of `rotate_proxy` is unreachable (rotation
always installs some proxy) and `get_proxy` never returns the `None`
sentinel. -/
theorem c9_tor_fallback_never_none :
    (∀ staticList, (mkProxyManager staticList).torProxies = [torDefaultProxy]) ∧
    (∀ pm pick now, (rotateProxy pm pick now).torProxies = pm.torProxies) ∧
    (∀ pm pick now, (getProxy pm pick now).2.torProxies = pm.torProxies) ∧
    (∀ pm pick now, pm.torProxies ≠ [] → (rotateProxy pm pick now).currentProxy ≠ none) ∧
    (∀ pm pick now, pm.torProxies ≠ [] → (getProxy pm pick now).1 ≠ none) := by
  have hrot : ∀ (pm : ProxyMgr) (pick now : Nat),
      pm.torProxies ≠ [] → (rotateProxy pm pick now).currentProxy ≠ none := by
    intro pm pick now htor
    unfold rotateProxy
    by_cases hs : pm.staticProxies ≠ []
    · rw [if_pos hs]; simp
    · rw [if_neg hs, if_pos htor]; simp
  refine ⟨fun _ => rfl, ?_, ?_, hrot, ?_⟩
  · intro pm pick now
    unfold rotateProxy
    split
    · rfl
    · split <;> rfl
  · intro pm pick now
    unfold getProxy
    split
    · simp only
      unfold rotateProxy
      split
      · rfl
      · split <;> rfl
    · rfl
  · intro pm pick now htor
    unfold getProxy
    split
    · exact hrot pm pick now htor
    · rename_i hcond
      push_neg at hcond
      exact hcond.1

/-- Witness for C9 with an empty static pool: the freshly constructed
manager has a non-empty Tor list and `get_proxy` yields a proxy, not the
`None` sentinel. -/
theorem c9_witness :
    ((mkProxyManager []).torProxies ≠ []) ∧
    (getProxy (mkProxyManager []) 0 400).1 ≠ none :=
  ⟨by decide,
   c9_tor_fallback_never_none.2.2.2.2 (mkProxyManager []) 0 400 (by decide)⟩

/-- C10: `_validate_data` accepts iff each of `lot_number`, `title`,
`current_bid` is truthy — i.e. it rejects exactly the records with a falsy
required field; the base extractor falls back to `0.0` when no dollar
pattern matches; any record whose `current_bid` is exactly `0.0` — the
fallback value, and also the honest parse of a `$0.00` page, as the last
conjunct computes — is rejected as invalid, hence (the validation gate
raising on rejection) never returned as a Success. -/
theorem c10_falsy_validation :
    (∀ get : String → PyVal, validateData get = true ↔
      (truthy (get "lot_number") = true ∧ truthy (get "title") = true ∧
       truthy (get "current_bid") = true)) ∧
    (∀ text, searchDollar text = none → baseExtractCurrentBid text = 0) ∧
    (∀ get : String → PyVal, get "current_bid" = .num 0 → validateData get = false) ∧
    baseExtractCurrentBid "Current bid: $0.00" = 0 := by
  refine ⟨?_, ?_, ?_, by with_unfolding_all rfl⟩
  · intro get
    simp [validateData, List.all, and_assoc]
  · intro text h
    simp [baseExtractCurrentBid, h]
  · intro get h
    simp [validateData, List.all, h, truthy]

/-- Witness for C10: a text with no dollar-amount pattern extracts to the
`0.0` fallback. -/
theorem c10_witness :
    (searchDollar "no price listed here" = none) ∧
    baseExtractCurrentBid "no price listed here" = 0 :=
  ⟨by with_unfolding_all rfl,
   c10_falsy_validation.2.1 "no price listed here" (by with_unfolding_all rfl)⟩
